import Mathlib

/-!
Verification of the multi-endpoint request orchestrator in `test.py`
(endpoint failure cache, error classifier, endpoint selector, resilient
call executor, tool-calling conversation loop, and request pacer).

Timestamps (`time.time()` samples) are modeled as integers (seconds); the
flow of real time is made explicit by passing sample values as parameters.
Python dictionaries keyed by model name are modeled as functions
`String → Option _`, sets as `String → Bool`.
-/

namespace BackendMcp

/-! ### String helpers: Python `pat in s` and `s.lower()` -/

/-- `starts_with l p` is true when `p` is a leading run of `l`. -/
def starts_with : List Char → List Char → Bool
  | _, [] => true
  | [], _ :: _ => false
  | c :: cs, p :: ps => c == p && starts_with cs ps

/-- Python substring test `pat in s`, on character lists. -/
def contains_sub : List Char → List Char → Bool
  | [], pat => pat.isEmpty
  | l@(_ :: cs), pat => starts_with l pat || contains_sub cs pat

/-- Python `pat in s` on strings. -/
def strContains (s pat : String) : Bool :=
  contains_sub s.toList pat.toList

/-- ASCII lower-casing of one character, as in Python `str.lower` on ASCII. -/
def char_to_lower (c : Char) : Char :=
  if 65 ≤ c.toNat ∧ c.toNat ≤ 90 then Char.ofNat (c.toNat + 32) else c

/-- Python `s.lower()` (ASCII). -/
def str_to_lower (s : String) : String :=
  ⟨s.toList.map char_to_lower⟩

/-! ### Endpoint Failure Cache (`MODEL_STATUS_CACHE`, `test.py` lines 42-123) -/

/-- The four failure kinds stored in `MODEL_STATUS_CACHE`. -/
inductive ErrType
  | quota_exhausted
  | rate_limited
  | not_found
  | other_error
deriving DecidableEq, Fintype

/-- `MODEL_STATUS_CACHE`: three expiring failure maps, a permanent
not-found set, and the working set. -/
structure CacheState where
  quota_exhausted : String → Option Int
  rate_limited : String → Option Int
  not_found : String → Bool
  other_errors : String → Option (String × Int)
  working : String → Bool

/-- The initial (empty) cache. -/
def initialCache : CacheState :=
  ⟨fun _ => none, fun _ => none, fun _ => false, fun _ => none, fun _ => false⟩

/-- `CACHE_EXPIRATION` (`test.py` lines 51-55). The Python dict has no entry
for `not_found` (permanent failures never expire); the value returned here
for `not_found` is arbitrary and never consulted. -/
def CACHE_EXPIRATION : ErrType → Int
  | .quota_exhausted => 3600
  | .rate_limited => 300
  | .other_error => 1800
  | .not_found => 0

/-- `cache_model_failure` (`test.py` lines 94-112): record one failure.
`now` is the `time.time()` sample taken at the top of the function. -/
def cache_model_failure (model_name : String) (error_type : ErrType)
    (error_message : String) (now : Int) (st : CacheState) : CacheState :=
  match error_type with
  | .not_found =>
      { st with not_found := fun m => if m = model_name then true else st.not_found m }
  | .quota_exhausted =>
      { st with quota_exhausted := fun m => if m = model_name then some now else st.quota_exhausted m }
  | .rate_limited =>
      { st with rate_limited := fun m => if m = model_name then some now else st.rate_limited m }
  | .other_error =>
      { st with other_errors := fun m => if m = model_name then some (error_message, now) else st.other_errors m }

/-- `cache_model_success` (`test.py` lines 114-123): add to the working set
and pop the model from the three expiring failure maps. -/
def cache_model_success (model_name : String) (st : CacheState) : CacheState where
  working := fun m => if m = model_name then true else st.working m
  quota_exhausted := fun m => if m = model_name then none else st.quota_exhausted m
  rate_limited := fun m => if m = model_name then none else st.rate_limited m
  other_errors := fun m => if m = model_name then none else st.other_errors m
  not_found := st.not_found

/-- Lazy deletion of an expired `quota_exhausted` entry (`test.py` line 72). -/
def delQuota (m : String) (st : CacheState) : CacheState :=
  { st with quota_exhausted := fun x => if x = m then none else st.quota_exhausted x }

/-- Lazy deletion of an expired `rate_limited` entry (`test.py` line 81). -/
def delRate (m : String) (st : CacheState) : CacheState :=
  { st with rate_limited := fun x => if x = m then none else st.rate_limited x }

/-- Lazy deletion of an expired `other_errors` entry (`test.py` line 90). -/
def delOther (m : String) (st : CacheState) : CacheState :=
  { st with other_errors := fun x => if x = m then none else st.other_errors x }

/-- The `other_errors` check of `is_model_cached_as_failed`
(`test.py` lines 84-92). -/
def checkOther (now : Int) (m : String) (st : CacheState) :
    Bool × Option ErrType × CacheState :=
  match st.other_errors m with
  | some p =>
      if now - p.2 < CACHE_EXPIRATION .other_error then (true, some .other_error, st)
      else (false, none, delOther m st)
  | none => (false, none, st)

/-- The `rate_limited` check of `is_model_cached_as_failed`, falling through
to the `other_errors` check (`test.py` lines 75-82). -/
def checkRate (now : Int) (m : String) (st : CacheState) :
    Bool × Option ErrType × CacheState :=
  match st.rate_limited m with
  | some cached =>
      if now - cached < CACHE_EXPIRATION .rate_limited then (true, some .rate_limited, st)
      else checkOther now m (delRate m st)
  | none => checkOther now m st

/-- `is_model_cached_as_failed` (`test.py` lines 57-92). Returns the verdict,
the reason kind (the Python reason string is abstracted to its kind), and the
post-state after lazy deletions. -/
def is_model_cached_as_failed (now : Int) (model_name : String) (st : CacheState) :
    Bool × Option ErrType × CacheState :=
  if st.not_found model_name then (true, some .not_found, st)
  else
    match st.quota_exhausted model_name with
    | some cached =>
        if now - cached < CACHE_EXPIRATION .quota_exhausted then (true, some .quota_exhausted, st)
        else checkRate now model_name (delQuota model_name st)
    | none => checkRate now model_name st

/-- `reset_model_cache` (`test.py` lines 756-766). -/
def reset_model_cache : CacheState := initialCache

/-- Whether the cache holds a record (expired or not) of kind `k` for `m`:
membership in the corresponding bucket of `MODEL_STATUS_CACHE`. -/
def recorded_as (st : CacheState) (m : String) : ErrType → Bool
  | .not_found => st.not_found m
  | .quota_exhausted => (st.quota_exhausted m).isSome
  | .rate_limited => (st.rate_limited m).isSome
  | .other_error => (st.other_errors m).isSome

/-- Whether the cache holds an unexpired record of kind `k` for `m` at
time `t` (a `not_found` record never expires). -/
def unexpired_record (st : CacheState) (m : String) (t : Int) : ErrType → Bool
  | .not_found => st.not_found m
  | .quota_exhausted =>
      match st.quota_exhausted m with
      | some c => decide (t - c < CACHE_EXPIRATION .quota_exhausted)
      | none => false
  | .rate_limited =>
      match st.rate_limited m with
      | some c => decide (t - c < CACHE_EXPIRATION .rate_limited)
      | none => false
  | .other_error =>
      match st.other_errors m with
      | some p => decide (t - p.2 < CACHE_EXPIRATION .other_error)
      | none => false

/-! ### Basic cache lemmas -/

theorem checkOther_fst (now : Int) (m : String) (st : CacheState) :
    (checkOther now m st).1 = unexpired_record st m now .other_error := by
  unfold checkOther unexpired_record
  rcases h : st.other_errors m with _ | p
  · simp
  · by_cases hlt : now - p.2 < CACHE_EXPIRATION .other_error <;> simp [hlt]

theorem delRate_other (m : String) (st : CacheState) :
    (delRate m st).other_errors = st.other_errors := rfl

theorem checkRate_fst (now : Int) (m : String) (st : CacheState) :
    (checkRate now m st).1 =
      (unexpired_record st m now .rate_limited || unexpired_record st m now .other_error) := by
  unfold checkRate
  rcases h : st.rate_limited m with _ | c
  · simp [checkOther_fst, unexpired_record, h]
  · by_cases hlt : now - c < CACHE_EXPIRATION .rate_limited
    · simp [hlt, unexpired_record, h]
    · simp [hlt, checkOther_fst, unexpired_record, h, delRate]

/-- The verdict of `is_model_cached_as_failed` is the disjunction of the four
per-bucket unexpired-membership tests. -/
theorem is_failed_fst (now : Int) (m : String) (st : CacheState) :
    (is_model_cached_as_failed now m st).1 =
      (st.not_found m || unexpired_record st m now .quota_exhausted
        || unexpired_record st m now .rate_limited
        || unexpired_record st m now .other_error) := by
  unfold is_model_cached_as_failed
  by_cases hnf : st.not_found m
  · simp [hnf]
  · rcases h : st.quota_exhausted m with _ | c
    · simp [hnf, h, checkRate_fst, unexpired_record]
    · by_cases hlt : now - c < CACHE_EXPIRATION .quota_exhausted
      · simp [hnf, h, hlt, unexpired_record]
      · simp [hnf, h, hlt, checkRate_fst, unexpired_record, delQuota]

/-! ### Error classification (`test.py` lines 530-561) -/

/-- The rate-limit markers of `test.py` line 534-536. -/
def rate_limit_indicators : List String :=
  ["429", "resource_exhausted", "quota", "rate limit", "too many requests"]

/-- The not-found markers of `test.py` lines 537-539. -/
def not_found_indicators : List String :=
  ["404", "not_found", "not found", "is not found"]

/-- `is_rate_limit` (`test.py` lines 534-536). -/
def is_rate_limit_error (error_str : String) : Bool :=
  rate_limit_indicators.any fun ind => strContains (str_to_lower error_str) ind

/-- `is_not_found` (`test.py` lines 537-539). -/
def is_not_found_error (error_str : String) : Bool :=
  not_found_indicators.any fun ind => strContains (str_to_lower error_str) ind

/-- `is_quota_exhausted` (`test.py` line 540). -/
def is_quota_exhausted_error (error_str : String) : Bool :=
  strContains (str_to_lower error_str) "limit: 0"

/-- The failure kind assigned by the `if`/`elif` chain of
`test.py` lines 543-561. -/
def classify_error (error_str : String) : ErrType :=
  if is_not_found_error error_str then .not_found
  else if is_quota_exhausted_error error_str then .quota_exhausted
  else if is_rate_limit_error error_str then .rate_limited
  else .other_error

/-- The `except` branch of the executor loop (`test.py` lines 530-561,
without the backoff sleep, which `try_models` accounts for separately):
classify the error string and record the failure. -/
def handle_error (model error_str : String) (now : Int) (st : CacheState) : CacheState :=
  if is_not_found_error error_str then
    cache_model_failure model .not_found "" now st
  else if is_quota_exhausted_error error_str then
    cache_model_failure model .quota_exhausted "" now st
  else if is_rate_limit_error error_str then
    cache_model_failure model .rate_limited "" now st
  else
    cache_model_failure model .other_error (error_str.take 200) now st

/-! ### Endpoint Selector (`test.py` lines 444-481) -/

/-- One entry of `AVAILABLE_MODELS` (`test.py` lines 145-149). -/
structure ModelInfo where
  full_name : String
  display_name : String

/-- Keywords that admit a discovered model (`test.py` line 466). -/
def chat_keywords : List String := ["gemini", "gemma"]

/-- Keywords that exclude a discovered model (`test.py` line 467). -/
def skip_keywords : List String := ["embedding", "imagen", "veo", "tts", "audio"]

/-- The static capability filter applied to discovered models
(`test.py` lines 464-467). -/
def is_chat_capable (display_name : String) : Bool :=
  let d := str_to_lower display_name
  (chat_keywords.any fun k => strContains d k)
    && !(skip_keywords.any fun k => strContains d k)

/-- The lists of `test.py` lines 450-454: the primary model when not already
in the working list, followed by the working list. `working_models` is
`list(MODEL_STATUS_CACHE["working"])`. -/
def primary_and_working (primary : Option String)
    (working_models : List String) : List String :=
  (match primary with
   | some p => if p ∈ working_models then [] else [p]
   | none => []) ++ working_models

/-- The list of `test.py` lines 444-458: primary first when not already a
working model, then the working list, then the fallback if absent. -/
def build_base (primary fallback : Option String)
    (working_models : List String) : List String :=
  match fallback with
  | some f =>
      if f ∈ primary_and_working primary working_models then
        primary_and_working primary working_models
      else primary_and_working primary working_models ++ [f]
  | none => primary_and_working primary working_models

/-- The discovered-model pass of `test.py` lines 461-468, appended after
`build_base`. -/
def build_models_to_try (primary fallback : Option String)
    (working_models : List String) (available : List ModelInfo) : List String :=
  available.foldl
    (fun acc info =>
      if info.full_name ∈ acc then acc
      else if is_chat_capable info.display_name then acc ++ [info.full_name]
      else acc) (build_base primary fallback working_models)

/-- The cache-exclusion filter (`test.py` lines 470-481): split the list into
models to try and skipped models, threading the cache through the stateful
`is_model_cached_as_failed` checks. -/
def filter_cached_models (now : Int) :
    List String → CacheState → List String × List (String × Option ErrType) × CacheState
  | [], st => ([], [], st)
  | m :: rest, st =>
      let r := is_model_cached_as_failed now m st
      let rr := filter_cached_models now rest r.2.2
      if r.1 then (rr.1, (m, r.2.1) :: rr.2.1, rr.2.2)
      else (m :: rr.1, rr.2.1, rr.2.2)

/-! ### Resilient Call Executor (`test.py` lines 427-576) -/

/-- Outcome of the executor: the endpoint that succeeded (`none` when all
candidates failed), the final cache, and the list of models after whose
failure the fixed 10s backoff sleep ran. -/
structure ExecOutcome where
  success : Option String
  cache : CacheState
  sleeps : List String

/-- The `for model_index, model in enumerate(models_to_try, 1)` loop of
`test.py` lines 509-576. `call m = none` means the remote call succeeded;
`call m = some err` means it raised an exception with string `err`.
`times idx` is the `time.time()` sample inside the handling of the
`idx`-th attempt's failure; the pacer call before each attempt only spends
time and is absorbed into these samples. `total` is `len(models_to_try)`. -/
def try_models (call : String → Option String) (times : Nat → Int) (total : Nat) :
    List String → Nat → CacheState → ExecOutcome
  | [], _, st => ⟨none, st, []⟩
  | m :: rest, idx, st =>
      match call m with
      | none => ⟨some m, cache_model_success m st, []⟩
      | some err =>
          let st2 := handle_error m err (times idx) st
          let out := try_models call times total rest (idx + 1) st2
          ⟨out.success, out.cache,
            if classify_error err = ErrType.rate_limited ∧ idx < total then m :: out.sleeps
            else out.sleeps⟩

/-- `call_gemini_with_model_iteration` (`test.py` lines 427-576): build the
candidate list, filter it against the cache at time `now`, return `(None,
None)` when nothing is left, otherwise run the attempt loop. -/
def call_gemini_with_model_iteration (call : String → Option String) (times : Nat → Int)
    (now : Int) (primary fallback : Option String) (working_models : List String)
    (available : List ModelInfo) (st : CacheState) : ExecOutcome :=
  let l := build_models_to_try primary fallback working_models available
  let f := filter_cached_models now l st
  if f.1.isEmpty then ⟨none, f.2.2, []⟩
  else try_models call times f.1.length f.1 1 f.2.2

/-! ### Tool-Calling Conversation Loop (`/message` handler, `test.py` lines 579-753) -/

/-- One content part of a model response: optional text and an optional
function call `(name, serialized arguments)`. -/
structure ContentPart where
  text : Option String
  function_call : Option (String × String)

/-- One response candidate. -/
structure Candidate where
  parts : List ContentPart

/-- A remote model response. -/
structure Resp where
  candidates : List Candidate

/-- One entry of the `tool_results` log (`test.py` lines 671-675). -/
structure ToolCall where
  function : String
  arguments : String
  result : String
deriving DecidableEq

/-- The part scan of one candidate (`test.py` lines 643-683): update the
captured text (Python `if part.text:` skips `None` and the empty string),
flag function calls, and execute each one via `execute_function`,
appending to the `tool_results` log. -/
def scan_parts (ex : String → String → String) (parts : List ContentPart)
    (acc : String × Bool × List ToolCall) : String × Bool × List ToolCall :=
  parts.foldl
    (fun acc p =>
      let txt := match p.text with
        | some s => if s = "" then acc.1 else s
        | none => acc.1
      match p.function_call with
      | some fc => (txt, true, acc.2.2 ++ [⟨fc.1, fc.2, ex fc.1 fc.2⟩])
      | none => (txt, acc.2.1, acc.2.2))
    acc

/-- The candidate scan of one loop iteration (`test.py` lines 642-683),
starting from the text captured so far, a cleared function-call flag and the
tool results of this round. -/
def scan_response (ex : String → String → String) (r : Resp) (txt0 : String) :
    String × Bool × List ToolCall :=
  r.candidates.foldl (fun acc c => scan_parts ex c.parts acc) (txt0, false, [])

/-- The final text extraction (`test.py` lines 726-729): rescan the last
response, keeping the previous text where a part has no nonempty text. -/
def extract_final_text (r : Resp) (txt0 : String) : String :=
  r.candidates.foldl
    (fun t c =>
      c.parts.foldl
        (fun t p =>
          match p.text with
          | some s => if s = "" then t else s
          | none => t)
        t)
    txt0

/-- `max_iterations` (`test.py` line 630). -/
def max_iterations : Nat := 3

/-- The `while iteration < max_iterations` loop (`test.py` lines 635-723),
written with fuel `max_iterations - iteration`. `backend n` is the result of
the `n`-th `call_gemini_with_model_iteration` call (`none` for a terminal
`(None, None)` failure); the conversation contents passed to it are
abstracted into the round number. Returns `(iteration, final_text,
tool_results, response)`, where the response is `none` when a mid-loop
executor call terminally failed. -/
def conversation_loop (backend : Nat → Option Resp) (ex : String → String → String) :
    Nat → Nat → Resp → String → List ToolCall → Nat × String × List ToolCall × Option Resp
  | 0, iteration, resp, txt, tools => (iteration, txt, tools, some resp)
  | fuel + 1, iteration, resp, txt, tools =>
      let iteration' := iteration + 1
      let s := scan_response ex resp txt
      if s.2.1 = false then (iteration', s.1, tools ++ s.2.2, some resp)
      else
        match backend iteration' with
        | none => (iteration', s.1, tools ++ s.2.2, none)
        | some r2 => conversation_loop backend ex fuel iteration' r2 s.1 (tools ++ s.2.2)

/-- The JSON body returned by the `/message` handler. The failure dictionary
of `test.py` lines 748-753 has no `iterations` key, hence the `Option`. -/
structure ApiResult where
  success : Bool
  text : String
  tool_calls : List ToolCall
  iterations : Option Nat

/-- The text of the exception raised when the loop exits with `response =
None` and `test.py` line 726 then evaluates `response.candidates`. -/
def noneTypeError : String :=
  "Error: NoneType object has no attribute candidates"

/-- The `/message` handler (`test.py` lines 579-753). A `none` from the
first executor call raises (line 621), caught by the outer `except` into a
failure body. After the loop, line 726 iterates `response.candidates`; when
a mid-loop executor call terminally failed this dereferences `None`, and the
resulting `AttributeError` is caught by the same `except`, producing a
failure body with an empty `tool_calls` list. -/
def message_handler (backend : Nat → Option Resp) (ex : String → String → String) :
    ApiResult :=
  match backend 0 with
  | none =>
      ⟨false, "Error: No available models could handle the request. All models failed.",
        [], none⟩
  | some r0 =>
      let out := conversation_loop backend ex max_iterations 0 r0 "" []
      match out.2.2.2 with
      | none => ⟨false, noneTypeError, [], none⟩
      | some r => ⟨true, extract_final_text r out.2.1, out.2.2.1, some out.1⟩

/-- Whether a response contains at least one function-call part. -/
def resp_has_tool_call (r : Resp) : Bool :=
  r.candidates.any fun c => c.parts.any fun p => p.function_call.isSome

/-! ### Request Pacer (`throttle_requests`, `test.py` lines 38-39 and 405-424) -/

/-- `MIN_REQUEST_INTERVAL` (`test.py` line 39). -/
def MIN_REQUEST_INTERVAL : Int := 5

/-- The pacer's shared state: the current clock (the value the next
`time.time()` would return) and `request_times`, oldest first. -/
structure PacerState where
  clock : Int
  request_times : List Int

/-- The `while request_times and now - request_times[0] > 60` pruning loop
(`test.py` lines 412-413). -/
def prune_old (now : Int) : List Int → List Int
  | [] => []
  | t :: rest => if now - t > 60 then prune_old now rest else t :: rest

/-- Append to a `deque(maxlen=15)`: when full, the leftmost entry is
dropped. -/
def deque_append (l : List Int) (t : Int) : List Int :=
  (if 15 ≤ l.length then l.drop (l.length + 1 - 15) else l) ++ [t]

/-- `throttle_requests` (`test.py` lines 405-424). `extra ≥ 0` is the real
time that elapses beyond the requested sleep before the final `time.time()`
sample is appended. Returns the new state and the slept duration. -/
def throttle_requests (extra : Int) (st : PacerState) : PacerState × Int :=
  let now := st.clock
  let pruned := prune_old now st.request_times
  let wait :=
    match pruned.getLast? with
    | some last =>
        if now - last < MIN_REQUEST_INTERVAL then MIN_REQUEST_INTERVAL - (now - last) else 0
    | none => 0
  let ts := now + wait + extra
  (⟨ts, deque_append pruned ts⟩, wait)

/-! ### Cache lazy-deletion lemmas -/

theorem checkOther_clears (t : Int) (e : String) (st : CacheState)
    (h : unexpired_record st e t .other_error = false) :
    (checkOther t e st).2.2.other_errors e = none := by
  unfold checkOther
  rcases ho : st.other_errors e with _ | p
  · simp [ho]
  · have hlt : ¬(t - p.2 < CACHE_EXPIRATION .other_error) := by
      simpa [unexpired_record, ho] using h
    simp [hlt, delOther]

theorem checkOther_rate (t : Int) (e : String) (st : CacheState) :
    (checkOther t e st).2.2.rate_limited = st.rate_limited := by
  unfold checkOther
  rcases ho : st.other_errors e with _ | p
  · rfl
  · by_cases hlt : t - p.2 < CACHE_EXPIRATION .other_error <;> simp [hlt, delOther]

theorem checkOther_quota (t : Int) (e : String) (st : CacheState) :
    (checkOther t e st).2.2.quota_exhausted = st.quota_exhausted := by
  unfold checkOther
  rcases ho : st.other_errors e with _ | p
  · rfl
  · by_cases hlt : t - p.2 < CACHE_EXPIRATION .other_error <;> simp [hlt, delOther]

theorem checkRate_clears (t : Int) (e : String) (st : CacheState)
    (hr : unexpired_record st e t .rate_limited = false)
    (ho : unexpired_record st e t .other_error = false) :
    (checkRate t e st).2.2.rate_limited e = none
      ∧ (checkRate t e st).2.2.other_errors e = none := by
  unfold checkRate
  rcases h : st.rate_limited e with _ | c
  · exact ⟨by rw [checkOther_rate]; exact h, checkOther_clears t e st ho⟩
  · have hlt : ¬(t - c < CACHE_EXPIRATION .rate_limited) := by
      simpa [unexpired_record, h] using hr
    have ho2 : unexpired_record (delRate e st) e t .other_error = false := by
      simpa [unexpired_record, delRate] using ho
    refine ⟨?_, ?_⟩
    · simp only [hlt, if_false]
      rw [checkOther_rate]
      simp [delRate]
    · simp only [hlt, if_false]
      exact checkOther_clears t e (delRate e st) ho2

theorem checkRate_quota (t : Int) (e : String) (st : CacheState) :
    (checkRate t e st).2.2.quota_exhausted = st.quota_exhausted := by
  unfold checkRate
  rcases h : st.rate_limited e with _ | c
  · rw [checkOther_quota]
  · by_cases hlt : t - c < CACHE_EXPIRATION .rate_limited
    · simp [hlt]
    · simp only [hlt, if_false]
      rw [checkOther_quota]
      rfl

/-- When no bucket holds an unexpired record for `e`, one query lazily
deletes every expired record for `e`, leaving all three expiring buckets
empty at `e`. -/
theorem is_failed_clears (t : Int) (e : String) (st : CacheState)
    (hnf : st.not_found e = false)
    (hq : unexpired_record st e t .quota_exhausted = false)
    (hr : unexpired_record st e t .rate_limited = false)
    (ho : unexpired_record st e t .other_error = false) :
    (is_model_cached_as_failed t e st).2.2.quota_exhausted e = none
      ∧ (is_model_cached_as_failed t e st).2.2.rate_limited e = none
      ∧ (is_model_cached_as_failed t e st).2.2.other_errors e = none := by
  unfold is_model_cached_as_failed
  rw [hnf]
  simp only [Bool.false_eq_true, if_false]
  rcases h : st.quota_exhausted e with _ | c
  · have := checkRate_clears t e st hr ho
    refine ⟨?_, this.1, this.2⟩
    rw [checkRate_quota]
    exact h
  · have hlt : ¬(t - c < CACHE_EXPIRATION .quota_exhausted) := by
      simpa [unexpired_record, h] using hq
    have hr2 : unexpired_record (delQuota e st) e t .rate_limited = false := by
      simpa [unexpired_record, delQuota] using hr
    have ho2 : unexpired_record (delQuota e st) e t .other_error = false := by
      simpa [unexpired_record, delQuota] using ho
    have := checkRate_clears t e (delQuota e st) hr2 ho2
    simp only [hlt, if_false]
    refine ⟨?_, this.1, this.2⟩
    rw [checkRate_quota]
    simp [delQuota]

/-! ### Claim C1 -/

/-- C1 counterexample: the claim "after any sequence of cache operations, no
endpoint is simultaneously a member of the working set and of an unexpired
failure bucket; `record_failure(e, k)` for a non-NOT_FOUND kind removes `e`
from the WorkingSet" is false at the concrete sequence
`cache_model_success "m"` followed by `cache_model_failure "m" rate_limited`
at time 0: at time 1 the endpoint is still in the working set while its
rate-limit record is unexpired. -/
theorem C1_counterexample :
    ((cache_model_failure "m" ErrType.rate_limited "" 0
        (cache_model_success "m" initialCache)).working "m" = true)
    ∧ ((is_model_cached_as_failed 1 "m"
        (cache_model_failure "m" ErrType.rate_limited "" 0
          (cache_model_success "m" initialCache))).1 = true) := by
  decide

/-- C1 (amended): `cache_model_failure` records the failure in the bucket of
its kind but leaves the working set unchanged, so an endpoint can be in the
working set and an unexpired failure bucket simultaneously; mutual exclusion
is not maintained on the failure side. -/
theorem C1_amended_failure_preserves_working (e msg : String) (k : ErrType) (t : Int)
    (st : CacheState) :
    (cache_model_failure e k msg t st).working = st.working
    ∧ recorded_as (cache_model_failure e k msg t st) e k = true := by
  cases k <;> simp [cache_model_failure, recorded_as]

/-! ### Claim C8 -/

/-- C8: after `cache_model_success e` the endpoint is in the working set,
has no entry in any of the three expiring failure buckets, and the
`not_found` set is untouched; an endpoint in `not_found` therefore remains
reported as failed at every time even after a success. -/
theorem C8_record_success_postcondition (e : String) (st : CacheState) :
    ((cache_model_success e st).working e = true)
    ∧ (cache_model_success e st).quota_exhausted e = none
    ∧ (cache_model_success e st).rate_limited e = none
    ∧ (cache_model_success e st).other_errors e = none
    ∧ (cache_model_success e st).not_found = st.not_found
    ∧ (st.not_found e = true →
        ∀ t : Int, (is_model_cached_as_failed t e (cache_model_success e st)).1 = true) := by
  refine ⟨by simp [cache_model_success], by simp [cache_model_success],
    by simp [cache_model_success], by simp [cache_model_success], rfl, ?_⟩
  intro h t
  rw [is_failed_fst]
  simp [cache_model_success, h]

/-- C8 witness: instantiated at `e = "m"` over a cache holding a `not_found`
record for `"m"`, discharging the permanence hypothesis. -/
theorem C8_witness :
    ((cache_model_failure "m" ErrType.not_found "" 0 initialCache).not_found "m" = true)
    ∧ (is_model_cached_as_failed 7 "m"
        (cache_model_success "m"
          (cache_model_failure "m" ErrType.not_found "" 0 initialCache))).1 = true :=
  ⟨by decide,
    (C8_record_success_postcondition "m"
      (cache_model_failure "m" ErrType.not_found "" 0 initialCache)).2.2.2.2.2 (by decide) 7⟩

/-! ### Claim C3 -/

/-- C3: TTL correctness of the failure cache. After `cache_model_failure e k`
at time `t0` for an expiring kind `k`: the endpoint is reported failed at
every time `t` with `t - t0 < CACHE_EXPIRATION k`; when the record is
expired (`t ≥ t0 + CACHE_EXPIRATION k`) and no other unexpired record
exists, it is reported not failed and the record is lazily deleted. An
endpoint recorded `not_found` is reported failed at every time, and only a
cache reset clears that. -/
theorem C3_ttl_correctness (e msg : String) (k : ErrType) (st : CacheState) (t0 t : Int)
    (hk : k ≠ ErrType.not_found) :
    (t - t0 < CACHE_EXPIRATION k →
      (is_model_cached_as_failed t e (cache_model_failure e k msg t0 st)).1 = true)
    ∧ (st.not_found e = false →
       (∀ j, j ≠ k → j ≠ ErrType.not_found → unexpired_record st e t j = false) →
       CACHE_EXPIRATION k ≤ t - t0 →
       (is_model_cached_as_failed t e (cache_model_failure e k msg t0 st)).1 = false
       ∧ recorded_as (is_model_cached_as_failed t e (cache_model_failure e k msg t0 st)).2.2
           e k = false)
    ∧ (∀ (st2 : CacheState) (t2 t3 : Int),
        (is_model_cached_as_failed t2 e (cache_model_failure e ErrType.not_found msg t3 st2)).1
          = true)
    ∧ (∀ t4 : Int, (is_model_cached_as_failed t4 e reset_model_cache).1 = false) := by
  refine ⟨?_, ?_, ?_, ?_⟩
  · intro hlt
    rw [is_failed_fst]
    cases k with
    | not_found => exact absurd rfl hk
    | quota_exhausted => simp [cache_model_failure, unexpired_record, hlt]
    | rate_limited => simp [cache_model_failure, unexpired_record, hlt]
    | other_error => simp [cache_model_failure, unexpired_record, hlt]
  · intro hnf hother hexp
    have hnf2 : (cache_model_failure e k msg t0 st).not_found e = false := by
      cases k with
      | not_found => exact absurd rfl hk
      | quota_exhausted => simpa [cache_model_failure] using hnf
      | rate_limited => simpa [cache_model_failure] using hnf
      | other_error => simpa [cache_model_failure] using hnf
    have hexp2 : ¬(t - t0 < CACHE_EXPIRATION k) := not_lt.mpr hexp
    have hq : unexpired_record (cache_model_failure e k msg t0 st) e t .quota_exhausted
        = false := by
      cases k with
      | not_found => exact absurd rfl hk
      | quota_exhausted => simp [cache_model_failure, unexpired_record, hexp2]
      | rate_limited =>
          simpa [cache_model_failure, unexpired_record] using
            hother .quota_exhausted (by decide) (by decide)
      | other_error =>
          simpa [cache_model_failure, unexpired_record] using
            hother .quota_exhausted (by decide) (by decide)
    have hr : unexpired_record (cache_model_failure e k msg t0 st) e t .rate_limited
        = false := by
      cases k with
      | not_found => exact absurd rfl hk
      | rate_limited => simp [cache_model_failure, unexpired_record, hexp2]
      | quota_exhausted =>
          simpa [cache_model_failure, unexpired_record] using
            hother .rate_limited (by decide) (by decide)
      | other_error =>
          simpa [cache_model_failure, unexpired_record] using
            hother .rate_limited (by decide) (by decide)
    have ho : unexpired_record (cache_model_failure e k msg t0 st) e t .other_error
        = false := by
      cases k with
      | not_found => exact absurd rfl hk
      | other_error => simp [cache_model_failure, unexpired_record, hexp2]
      | quota_exhausted =>
          simpa [cache_model_failure, unexpired_record] using
            hother .other_error (by decide) (by decide)
      | rate_limited =>
          simpa [cache_model_failure, unexpired_record] using
            hother .other_error (by decide) (by decide)
    refine ⟨?_, ?_⟩
    · rw [is_failed_fst]
      simp [hnf2, hq, hr, ho]
    · have hc := is_failed_clears t e (cache_model_failure e k msg t0 st) hnf2 hq hr ho
      cases k with
      | not_found => exact absurd rfl hk
      | quota_exhausted => simp [recorded_as, hc.1]
      | rate_limited => simp [recorded_as, hc.2.1]
      | other_error => simp [recorded_as, hc.2.2]
  · intro st2 t2 t3
    rw [is_failed_fst]
    simp [cache_model_failure]
  · intro t4
    rw [is_failed_fst]
    simp [reset_model_cache, initialCache, unexpired_record]

/-- C3 witness: kind `rate_limited` recorded at time 0 over the empty cache;
reported failed at time 100, reported recovered at time 300 (= the
rate-limit TTL), and a `not_found` record reported failed at time 999999. -/
theorem C3_witness :
    ((is_model_cached_as_failed 100 "m"
        (cache_model_failure "m" ErrType.rate_limited "" 0 initialCache)).1 = true)
    ∧ ((is_model_cached_as_failed 300 "m"
        (cache_model_failure "m" ErrType.rate_limited "" 0 initialCache)).1 = false)
    ∧ ((is_model_cached_as_failed 999999 "m"
        (cache_model_failure "m" ErrType.not_found "" 0 initialCache)).1 = true) :=
  ⟨(C3_ttl_correctness "m" "" ErrType.rate_limited initialCache 0 100 (by decide)).1
      (by decide),
    ((C3_ttl_correctness "m" "" ErrType.rate_limited initialCache 0 300 (by decide)).2.1
      (by decide) (by decide) (by decide)).1,
    (C3_ttl_correctness "m" "" ErrType.rate_limited initialCache 0 100
      (by decide)).2.2.1 initialCache 999999 0⟩

/-! ### Recording lemmas for the executor loop -/

/-- Handling a failed call records the failure under its classified kind. -/
theorem handle_error_records (m err : String) (t : Int) (st : CacheState) :
    recorded_as (handle_error m err t st) m (classify_error err) = true := by
  unfold handle_error classify_error
  split_ifs <;> simp [recorded_as, cache_model_failure]

/-- Handling a failure of another model does not disturb `m`'s records. -/
theorem handle_error_frame (m m2 err : String) (t : Int) (st : CacheState) (k : ErrType)
    (hne : m ≠ m2) :
    recorded_as (handle_error m2 err t st) m k = recorded_as st m k := by
  unfold handle_error
  split_ifs <;> cases k <;> simp [recorded_as, cache_model_failure, hne]

/-- A success of another model does not disturb `m`'s records. -/
theorem cache_success_frame (m m2 : String) (st : CacheState) (k : ErrType)
    (hne : m ≠ m2) :
    recorded_as (cache_model_success m2 st) m k = recorded_as st m k := by
  cases k <;> simp [recorded_as, cache_model_success, hne]

/-- The attempt loop does not disturb the records of a model outside its
candidate list. -/
theorem try_models_frame (call : String → Option String) (times : Nat → Int) (total : Nat)
    (m : String) (k : ErrType) :
    ∀ (models : List String) (idx : Nat) (st : CacheState), m ∉ models →
      recorded_as (try_models call times total models idx st).cache m k
        = recorded_as st m k := by
  intro models
  induction models with
  | nil => intro idx st _; rfl
  | cons m0 rest ih =>
      intro idx st hm
      have hne : m ≠ m0 := fun h => hm (h ▸ List.mem_cons_self m0 rest)
      have hrest : m ∉ rest := fun h => hm (List.mem_cons_of_mem m0 h)
      rcases hc : call m0 with _ | err
      · simp [try_models, hc, cache_success_frame m m0 st k hne]
      · simp [try_models, hc, ih (idx + 1) _ hrest,
          handle_error_frame m m0 err (times idx) st k hne]

/-- The endpoint returned by the attempt loop is the first candidate whose
call succeeds. -/
theorem try_models_success (call : String → Option String) (times : Nat → Int)
    (total : Nat) :
    ∀ (models : List String) (idx : Nat) (st : CacheState),
      (try_models call times total models idx st).success
        = models.find? fun m => (call m).isNone := by
  intro models
  induction models with
  | nil => intro idx st; rfl
  | cons m0 rest ih =>
      intro idx st
      rcases hc : call m0 with _ | err
      · simp [try_models, hc, List.find?]
      · simp [try_models, hc, List.find?, ih]

/-- Every backoff sleep of the attempt loop follows a failure classified as
`rate_limited`. -/
theorem try_models_sleeps_rate (call : String → Option String) (times : Nat → Int)
    (total : Nat) :
    ∀ (models : List String) (idx : Nat) (st : CacheState) (m : String),
      m ∈ (try_models call times total models idx st).sleeps →
      ∃ err, call m = some err ∧ classify_error err = ErrType.rate_limited := by
  intro models
  induction models with
  | nil => intro idx st m hm; simp [try_models] at hm
  | cons m0 rest ih =>
      intro idx st m hm
      rcases hc : call m0 with _ | err
      · simp [try_models, hc] at hm
      · simp only [try_models, hc] at hm
        by_cases hcond : classify_error err = ErrType.rate_limited ∧ idx < total
        · rw [if_pos hcond] at hm
          rcases List.mem_cons.mp hm with h | h
          · exact ⟨err, h ▸ hc, hcond.1⟩
          · exact ih (idx + 1) _ m h
        · rw [if_neg hcond] at hm
          exact ih (idx + 1) _ m hm

/-- The backoff sleep never follows the final candidate: a model after whose
failure the loop slept lies strictly before the end of the candidate list. -/
theorem try_models_sleeps_not_last (call : String → Option String) (times : Nat → Int)
    (total : Nat) :
    ∀ (models : List String) (idx : Nat) (st : CacheState) (m : String),
      idx + models.length = total + 1 →
      m ∈ (try_models call times total models idx st).sleeps →
      m ∈ models.dropLast := by
  intro models
  induction models with
  | nil => intro idx st m _ hm; simp [try_models] at hm
  | cons m0 rest ih =>
      intro idx st m hlen hm
      rcases hc : call m0 with _ | err
      · simp [try_models, hc] at hm
      · simp only [try_models, hc] at hm
        have hrec : m ∈ (try_models call times total rest (idx + 1)
            (handle_error m0 err (times idx) st)).sleeps → m ∈ rest.dropLast := by
          intro h
          exact ih (idx + 1) _ m (by simp at hlen ⊢; omega) h
        by_cases hcond : classify_error err = ErrType.rate_limited ∧ idx < total
        · rw [if_pos hcond] at hm
          rcases List.mem_cons.mp hm with h | h
          · subst h
            rcases rest with _ | ⟨r1, rs⟩
            · exfalso
              simp at hlen
              omega
            · simp [List.dropLast]
          · rcases rest with _ | ⟨r1, rs⟩
            · simp [try_models] at h
            · have := hrec h
              simp [List.dropLast] at this ⊢
              tauto
        · rw [if_neg hcond] at hm
          rcases rest with _ | ⟨r1, rs⟩
          · simp [try_models] at hm
          · have := hrec hm
            simp [List.dropLast] at this ⊢
            tauto

/-- When the whole candidate list is exhausted without a success, every
candidate's call failed and its classified failure kind is recorded in the
final cache. -/
theorem try_models_records_all (call : String → Option String) (times : Nat → Int)
    (total : Nat) :
    ∀ (models : List String) (idx : Nat) (st : CacheState), models.Nodup →
      (try_models call times total models idx st).success = none →
      ∀ m ∈ models, ∃ err, call m = some err
        ∧ recorded_as (try_models call times total models idx st).cache m
            (classify_error err) = true := by
  intro models
  induction models with
  | nil => intro idx st _ _ m hm; simp at hm
  | cons m0 rest ih =>
      intro idx st hnd hnone m hm
      rcases hc : call m0 with _ | err
      · simp [try_models, hc] at hnone
      · have hcache : (try_models call times total (m0 :: rest) idx st).cache
            = (try_models call times total rest (idx + 1)
                (handle_error m0 err (times idx) st)).cache := by
          simp [try_models, hc]
        have hnone2 : (try_models call times total rest (idx + 1)
            (handle_error m0 err (times idx) st)).success = none := by
          simpa [try_models, hc] using hnone
        rcases List.mem_cons.mp hm with h | h
        · subst h
          refine ⟨err, hc, ?_⟩
          rw [hcache, try_models_frame call times total m (classify_error err) rest (idx + 1)
            _ (List.nodup_cons.mp hnd).1]
          exact handle_error_records m err (times idx) st
        · rcases ih (idx + 1) _ (List.nodup_cons.mp hnd).2 hnone2 m h with ⟨err2, hc2, hr2⟩
          exact ⟨err2, hc2, by rw [hcache]; exact hr2⟩

/-! ### Claim C4 -/

/-- C4: for a non-empty candidate list, the attempt loop returns the first
candidate whose call succeeds; it returns a terminal `(None, None)` exactly
when no candidate succeeds, in which case every candidate was tried and its
classified failure recorded; a backoff sleep happens only after a failure
classified `rate_limited` and only when more candidates remain. -/
theorem C4_executor_exhaustion (call : String → Option String) (times : Nat → Int)
    (models : List String) (st : CacheState) (_hne : models ≠ []) :
    ((try_models call times models.length models 1 st).success
        = models.find? fun m => (call m).isNone)
    ∧ (∀ m ∈ (try_models call times models.length models 1 st).sleeps,
        ∃ err, call m = some err ∧ classify_error err = ErrType.rate_limited)
    ∧ (∀ m ∈ (try_models call times models.length models 1 st).sleeps,
        m ∈ models.dropLast)
    ∧ (models.Nodup →
        (try_models call times models.length models 1 st).success = none →
        ∀ m ∈ models, ∃ err, call m = some err
          ∧ recorded_as (try_models call times models.length models 1 st).cache m
              (classify_error err) = true) :=
  ⟨try_models_success call times models.length models 1 st,
    fun m hm => try_models_sleeps_rate call times models.length models 1 st m hm,
    fun m hm =>
      try_models_sleeps_not_last call times models.length models 1 st m (by omega) hm,
    fun hnd hnone m hm =>
      try_models_records_all call times models.length models 1 st hnd hnone m hm⟩

/-- C4 witness: over the two-candidate list `["a", "b"]` where `"a"` fails
with a rate-limit error and `"b"` succeeds, the loop returns `"b"`; over the
same list where both fail with a not-found error, the loop is terminal and
both failures are recorded. -/
theorem C4_witness :
    ((try_models (fun m => if m = "a" then some "429 rate limit" else none) (fun _ => 0) 2
        ["a", "b"] 1 initialCache).success = some "b")
    ∧ (∀ m ∈ (try_models (fun _ => some "404") (fun _ => 0) 2 ["a", "b"] 1
          initialCache).sleeps, m ∈ (["a", "b"] : List String).dropLast)
    ∧ (∀ m ∈ (["a", "b"] : List String),
        ∃ err, (fun _ => some "404" : String → Option String) m = some err
          ∧ recorded_as (try_models (fun _ => some "404") (fun _ => 0) 2 ["a", "b"] 1
              initialCache).cache m (classify_error err) = true) :=
  ⟨(C4_executor_exhaustion (fun m => if m = "a" then some "429 rate limit" else none)
      (fun _ => 0) ["a", "b"] initialCache (by decide)).1.trans (by decide),
    (C4_executor_exhaustion (fun _ => some "404") (fun _ => 0) ["a", "b"] initialCache
      (by decide)).2.2.1,
    (C4_executor_exhaustion (fun _ => some "404") (fun _ => 0) ["a", "b"] initialCache
      (by decide)).2.2.2 (by decide) (by decide)⟩

/-! ### Claim C6 -/

/-- C6: the failure kind is assigned by checking, in priority order: a
not-found marker gives `not_found`; otherwise the zero-quota marker
`"limit: 0"` gives `quota_exhausted`; otherwise a generic
rate/quota/too-many-requests marker gives `rate_limited`; anything else
gives `other_error` — and handling the failure records exactly the
classified kind in the cache. -/
theorem C6_classification_priority (err model : String) (t : Int) (st : CacheState) :
    (is_not_found_error err = true → classify_error err = ErrType.not_found)
    ∧ (is_not_found_error err = false → is_quota_exhausted_error err = true →
        classify_error err = ErrType.quota_exhausted)
    ∧ (is_not_found_error err = false → is_quota_exhausted_error err = false →
        is_rate_limit_error err = true → classify_error err = ErrType.rate_limited)
    ∧ (is_not_found_error err = false → is_quota_exhausted_error err = false →
        is_rate_limit_error err = false → classify_error err = ErrType.other_error)
    ∧ recorded_as (handle_error model err t st) model (classify_error err) = true := by
  refine ⟨?_, ?_, ?_, ?_, handle_error_records model err t st⟩
  · intro h1; simp [classify_error, h1]
  · intro h1 h2; simp [classify_error, h1, h2]
  · intro h1 h2 h3; simp [classify_error, h1, h2, h3]
  · intro h1 h2 h3; simp [classify_error, h1, h2, h3]

/-- C6 witness: the four priority branches exercised on concrete error
strings (note `"404 quota"` carries both a not-found and a rate marker and
is classified `not_found`), and a concrete recording. -/
theorem C6_witness :
    classify_error "404 quota" = ErrType.not_found
    ∧ classify_error "limit: 0" = ErrType.quota_exhausted
    ∧ classify_error "429 Too Many Requests" = ErrType.rate_limited
    ∧ classify_error "connection reset" = ErrType.other_error
    ∧ recorded_as (handle_error "m" "429 Too Many Requests" 0 initialCache) "m"
        (classify_error "429 Too Many Requests") = true :=
  ⟨(C6_classification_priority "404 quota" "m" 0 initialCache).1 (by decide),
    (C6_classification_priority "limit: 0" "m" 0 initialCache).2.1 (by decide) (by decide),
    (C6_classification_priority "429 Too Many Requests" "m" 0 initialCache).2.2.1
      (by decide) (by decide) (by decide),
    (C6_classification_priority "connection reset" "m" 0 initialCache).2.2.2.1
      (by decide) (by decide) (by decide),
    (C6_classification_priority "429 Too Many Requests" "m" 0 initialCache).2.2.2.2⟩

/-! ### Selector lemmas -/

/-- Everything in the candidate list after the discovery pass was already in
the accumulator or is a discovered chat-capable model. -/
theorem build_fold_mem (available : List ModelInfo) :
    ∀ (acc : List String) (m : String),
      m ∈ available.foldl
        (fun acc info =>
          if info.full_name ∈ acc then acc
          else if is_chat_capable info.display_name then acc ++ [info.full_name]
          else acc) acc →
      m ∈ acc
        ∨ ∃ info ∈ available, info.full_name = m ∧ is_chat_capable info.display_name = true := by
  induction available with
  | nil => intro acc m hm; exact Or.inl hm
  | cons info rest ih =>
      intro acc m hm
      simp only [List.foldl_cons] at hm
      rcases ih _ m hm with h | ⟨i, hi, hh⟩
      · by_cases h1 : info.full_name ∈ acc
        · rw [if_pos h1] at h
          exact Or.inl h
        · rw [if_neg h1] at h
          by_cases h2 : is_chat_capable info.display_name = true
          · rw [if_pos h2] at h
            rcases List.mem_append.mp h with h3 | h3
            · exact Or.inl h3
            · exact Or.inr ⟨info, List.mem_cons_self _ _, (List.mem_singleton.mp h3).symm, h2⟩
          · rw [if_neg h2] at h
            exact Or.inl h
      · exact Or.inr ⟨i, List.mem_cons_of_mem _ hi, hh⟩

/-- Everything in the primary-plus-working list is the primary or a working
model. -/
theorem mem_primary_and_working (primary : Option String) (working_models : List String)
    (x : String) (hx : x ∈ primary_and_working primary working_models) :
    primary = some x ∨ x ∈ working_models := by
  unfold primary_and_working at hx
  rcases List.mem_append.mp hx with h | h
  · rcases primary with _ | p
    · simp at h
    · by_cases hp : p ∈ working_models
      · simp [hp] at h
      · simp [hp] at h
        exact Or.inl (by rw [h])
  · exact Or.inr h

/-- Everything in the pre-discovery base list is the primary, the fallback,
or a working model. -/
theorem mem_build_base (primary fallback : Option String) (working_models : List String)
    (m : String) (hm : m ∈ build_base primary fallback working_models) :
    primary = some m ∨ fallback = some m ∨ m ∈ working_models := by
  rcases fallback with _ | f
  · simp only [build_base] at hm
    rcases mem_primary_and_working primary working_models m hm with h | h
    · exact Or.inl h
    · exact Or.inr (Or.inr h)
  · simp only [build_base] at hm
    by_cases hf : f ∈ primary_and_working primary working_models
    · rw [if_pos hf] at hm
      rcases mem_primary_and_working primary working_models m hm with h | h
      · exact Or.inl h
      · exact Or.inr (Or.inr h)
    · rw [if_neg hf] at hm
      rcases List.mem_append.mp hm with h | h
      · rcases mem_primary_and_working primary working_models m h with h2 | h2
        · exact Or.inl h2
        · exact Or.inr (Or.inr h2)
      · have hmf : m = f := List.mem_singleton.mp h
        exact Or.inr (Or.inl (by rw [hmf]))

/-- The primary-plus-working list has no duplicates. -/
theorem primary_and_working_nodup (primary : Option String) (working_models : List String)
    (hw : working_models.Nodup) : (primary_and_working primary working_models).Nodup := by
  unfold primary_and_working
  rcases primary with _ | p
  · simpa using hw
  · by_cases hp : p ∈ working_models
    · simpa [hp] using hw
    · simp [hp, hw, List.nodup_cons]

/-- The pre-discovery base list has no duplicates. -/
theorem build_base_nodup (primary fallback : Option String) (working_models : List String)
    (hw : working_models.Nodup) : (build_base primary fallback working_models).Nodup := by
  rcases fallback with _ | f
  · simp only [build_base]
    exact primary_and_working_nodup primary working_models hw
  · simp only [build_base]
    by_cases hf : f ∈ primary_and_working primary working_models
    · rw [if_pos hf]
      exact primary_and_working_nodup primary working_models hw
    · rw [if_neg hf]
      simp [List.nodup_append, primary_and_working_nodup primary working_models hw]
      exact hf

/-- The discovery pass preserves freedom from duplicates. -/
theorem build_fold_nodup (available : List ModelInfo) :
    ∀ acc : List String, acc.Nodup →
      (available.foldl
        (fun acc info =>
          if info.full_name ∈ acc then acc
          else if is_chat_capable info.display_name then acc ++ [info.full_name]
          else acc) acc).Nodup := by
  induction available with
  | nil => intro acc h; exact h
  | cons info rest ih =>
      intro acc h
      simp only [List.foldl_cons]
      apply ih
      by_cases h1 : info.full_name ∈ acc
      · rwa [if_pos h1]
      · rw [if_neg h1]
        by_cases h2 : is_chat_capable info.display_name = true
        · rw [if_pos h2]
          simp [List.nodup_append, h]
          exact h1
        · rwa [if_neg h2]

/-- The cache-exclusion filter returns a sublist of its input. -/
theorem filter_cached_sublist (now : Int) :
    ∀ (l : List String) (st : CacheState), (filter_cached_models now l st).1.Sublist l := by
  intro l
  induction l with
  | nil => intro st; exact List.Sublist.refl []
  | cons m rest ih =>
      intro st
      simp only [filter_cached_models]
      split
      · exact (ih _).cons m
      · exact (ih _).cons₂ m

/-! ### Claim C5 -/

/-- C5: with empty working set and cache, primary `P`, fallback `F` and
discovered chat-capable models `[P, F, X, Y]`, the filtered candidate list
is exactly `[P, F, X, Y]`; with `X` held by an unexpired rate-limit record
it is exactly `[P, F, Y]`; and in general every candidate that is neither
the primary, the fallback nor a working model is a discovered model that
passed the static chat-capability filter (so discovered
embedding/image/video/tts/audio models never enter the list this way). -/
theorem C5_selector_ordering :
    ((filter_cached_models 1
        (build_models_to_try (some "P") (some "F") []
          [⟨"P", "gemini-p"⟩, ⟨"F", "gemini-f"⟩, ⟨"X", "gemini-x"⟩, ⟨"Y", "gemini-y"⟩])
        initialCache).1 = ["P", "F", "X", "Y"])
    ∧ ((filter_cached_models 1
        (build_models_to_try (some "P") (some "F") []
          [⟨"P", "gemini-p"⟩, ⟨"F", "gemini-f"⟩, ⟨"X", "gemini-x"⟩, ⟨"Y", "gemini-y"⟩])
        (cache_model_failure "X" ErrType.rate_limited "" 0 initialCache)).1
      = ["P", "F", "Y"])
    ∧ (∀ (primary fallback : Option String) (working_models : List String)
        (available : List ModelInfo) (m : String),
        m ∈ build_models_to_try primary fallback working_models available →
        primary = some m ∨ fallback = some m ∨ m ∈ working_models
          ∨ ∃ info ∈ available, info.full_name = m
              ∧ is_chat_capable info.display_name = true) := by
  refine ⟨by decide, by decide, ?_⟩
  intro primary fallback working_models available m hm
  rcases build_fold_mem available _ m hm with h | h
  · rcases mem_build_base primary fallback working_models m h with h | h | h
    · exact Or.inl h
    · exact Or.inr (Or.inl h)
    · exact Or.inr (Or.inr (Or.inl h))
  · exact Or.inr (Or.inr (Or.inr h))

/-- C5 witness: the general conjunct instantiated at the discovered model
`"X"` of the concrete scenario, which is neither primary, fallback nor
working, hence discovered and chat-capable. -/
theorem C5_witness :
    (some "P" : Option String) = some "X" ∨ (some "F" : Option String) = some "X"
      ∨ "X" ∈ ([] : List String)
      ∨ ∃ info ∈ [(⟨"P", "gemini-p"⟩ : ModelInfo), ⟨"F", "gemini-f"⟩, ⟨"X", "gemini-x"⟩,
          ⟨"Y", "gemini-y"⟩], info.full_name = "X" ∧ is_chat_capable info.display_name = true :=
  C5_selector_ordering.2.2 (some "P") (some "F") []
    [⟨"P", "gemini-p"⟩, ⟨"F", "gemini-f"⟩, ⟨"X", "gemini-x"⟩, ⟨"Y", "gemini-y"⟩] "X"
    (by decide)

/-! ### Claim C10 -/

/-- C10: assuming the working list and the discovered identifiers are
duplicate-free, the candidate list built by
`call_gemini_with_model_iteration` has no duplicate model identifier,
before and after cache filtering. -/
theorem C10_candidates_nodup (primary fallback : Option String)
    (working_models : List String) (available : List ModelInfo) (now : Int)
    (st : CacheState) (hw : working_models.Nodup)
    (_ha : (available.map ModelInfo.full_name).Nodup) :
    (build_models_to_try primary fallback working_models available).Nodup
    ∧ (filter_cached_models now
        (build_models_to_try primary fallback working_models available) st).1.Nodup := by
  have h1 : (build_models_to_try primary fallback working_models available).Nodup :=
    build_fold_nodup available _ (build_base_nodup primary fallback working_models hw)
  exact ⟨h1, (filter_cached_sublist now _ st).nodup h1⟩

/-- C10 witness: the concrete scenario of C5 plus a working model, with both
duplicate-freedom hypotheses discharged concretely. -/
theorem C10_witness :
    (build_models_to_try (some "P") (some "F") ["W"]
      [⟨"P", "gemini-p"⟩, ⟨"F", "gemini-f"⟩, ⟨"X", "gemini-x"⟩, ⟨"Y", "gemini-y"⟩]).Nodup
    ∧ (filter_cached_models 1
        (build_models_to_try (some "P") (some "F") ["W"]
          [⟨"P", "gemini-p"⟩, ⟨"F", "gemini-f"⟩, ⟨"X", "gemini-x"⟩, ⟨"Y", "gemini-y"⟩])
        initialCache).1.Nodup :=
  C10_candidates_nodup (some "P") (some "F") ["W"]
    [⟨"P", "gemini-p"⟩, ⟨"F", "gemini-f"⟩, ⟨"X", "gemini-x"⟩, ⟨"Y", "gemini-y"⟩] 1
    initialCache (by decide) (by decide)

/-! ### Conversation-loop lemmas -/

/-- The function-call flag computed by the part scan. -/
theorem scan_parts_flag (ex : String → String → String) :
    ∀ (parts : List ContentPart) (acc : String × Bool × List ToolCall),
      (scan_parts ex parts acc).2.1
        = (acc.2.1 || parts.any fun p => p.function_call.isSome) := by
  intro parts
  induction parts with
  | nil => intro acc; simp [scan_parts]
  | cons p ps ih =>
      intro acc
      simp only [scan_parts, List.foldl_cons] at ih ⊢
      rw [ih]
      rcases hfc : p.function_call with _ | fc <;>
        simp [hfc, List.any_cons, Bool.or_assoc]

/-- The function-call flag computed by the response scan. -/
theorem scan_response_flag (ex : String → String → String) (r : Resp) (txt0 : String) :
    (scan_response ex r txt0).2.1 = resp_has_tool_call r := by
  unfold scan_response resp_has_tool_call
  have h : ∀ (cands : List Candidate) (acc : String × Bool × List ToolCall),
      (cands.foldl (fun acc c => scan_parts ex c.parts acc) acc).2.1
        = (acc.2.1 || cands.any fun c => c.parts.any fun p => p.function_call.isSome) := by
    intro cands
    induction cands with
    | nil => intro acc; simp
    | cons c cs ih =>
        intro acc
        simp only [List.foldl_cons]
        rw [ih, scan_parts_flag, List.any_cons, Bool.or_assoc]
  rw [h]
  simp

/-- One loop step when the scan finds no function call: break with the
response retained. -/
theorem conversation_loop_step_done (backend : Nat → Option Resp)
    (ex : String → String → String) (fuel it : Nat) (resp : Resp) (txt : String)
    (tools : List ToolCall) (h : (scan_response ex resp txt).2.1 = false) :
    conversation_loop backend ex (fuel + 1) it resp txt tools
      = (it + 1, (scan_response ex resp txt).1,
          tools ++ (scan_response ex resp txt).2.2, some resp) := by
  simp only [conversation_loop]
  rw [if_pos h]

/-- One loop step when the scan finds a function call but the follow-up
executor call terminally fails: break with `response = None`. -/
theorem conversation_loop_step_fail (backend : Nat → Option Resp)
    (ex : String → String → String) (fuel it : Nat) (resp : Resp) (txt : String)
    (tools : List ToolCall) (h : (scan_response ex resp txt).2.1 = true)
    (hb : backend (it + 1) = none) :
    conversation_loop backend ex (fuel + 1) it resp txt tools
      = (it + 1, (scan_response ex resp txt).1,
          tools ++ (scan_response ex resp txt).2.2, none) := by
  simp only [conversation_loop]
  rw [if_neg (by simp [h]), hb]

/-- One loop step when the scan finds a function call and the follow-up
executor call returns a response: continue. -/
theorem conversation_loop_step_cont (backend : Nat → Option Resp)
    (ex : String → String → String) (fuel it : Nat) (resp r2 : Resp) (txt : String)
    (tools : List ToolCall) (h : (scan_response ex resp txt).2.1 = true)
    (hb : backend (it + 1) = some r2) :
    conversation_loop backend ex (fuel + 1) it resp txt tools
      = conversation_loop backend ex fuel (it + 1) r2 (scan_response ex resp txt).1
          (tools ++ (scan_response ex resp txt).2.2) := by
  simp only [conversation_loop]
  rw [if_neg (by simp [h]), hb]

/-- The loop counter never exceeds the starting counter plus the fuel. -/
theorem conversation_loop_le (backend : Nat → Option Resp) (ex : String → String → String) :
    ∀ (fuel iteration : Nat) (resp : Resp) (txt : String) (tools : List ToolCall),
      (conversation_loop backend ex fuel iteration resp txt tools).1 ≤ iteration + fuel := by
  intro fuel
  induction fuel with
  | zero => intro it resp txt tools; simp [conversation_loop]
  | succ f ih =>
      intro it resp txt tools
      by_cases hflag : (scan_response ex resp txt).2.1 = false
      · rw [conversation_loop_step_done backend ex f it resp txt tools hflag]
        show it + 1 ≤ it + (f + 1)
        omega
      · have hflag2 : (scan_response ex resp txt).2.1 = true := by
          revert hflag
          cases (scan_response ex resp txt).2.1 <;> simp
        rcases hb : backend (it + 1) with _ | r2
        · rw [conversation_loop_step_fail backend ex f it resp txt tools hflag2 hb]
          show it + 1 ≤ it + (f + 1)
          omega
        · rw [conversation_loop_step_cont backend ex f it resp r2 txt tools hflag2 hb]
          have := ih (it + 1) r2 (scan_response ex resp txt).1
            (tools ++ (scan_response ex resp txt).2.2)
          omega

/-- When every executor call returns a response, the loop never exits with
`response = None`. -/
theorem conversation_loop_some (backend : Nat → Option Resp) (ex : String → String → String)
    (htotal : ∀ n, backend n ≠ none) :
    ∀ (fuel iteration : Nat) (resp : Resp) (txt : String) (tools : List ToolCall),
      (conversation_loop backend ex fuel iteration resp txt tools).2.2.2.isSome = true := by
  intro fuel
  induction fuel with
  | zero => intro it resp txt tools; simp [conversation_loop]
  | succ f ih =>
      intro it resp txt tools
      by_cases hflag : (scan_response ex resp txt).2.1 = false
      · rw [conversation_loop_step_done backend ex f it resp txt tools hflag]
        rfl
      · have hflag2 : (scan_response ex resp txt).2.1 = true := by
          revert hflag
          cases (scan_response ex resp txt).2.1 <;> simp
        rcases hb : backend (it + 1) with _ | r2
        · exact absurd hb (htotal (it + 1))
        · rw [conversation_loop_step_cont backend ex f it resp r2 txt tools hflag2 hb]
          exact ih (it + 1) r2 _ _

/-- Against a backend whose every response requests a tool call, the loop
consumes its whole fuel. -/
theorem conversation_loop_full (backend : Nat → Option Resp) (ex : String → String → String)
    (hfc : ∀ n r, backend n = some r → resp_has_tool_call r = true)
    (htotal : ∀ n, backend n ≠ none) :
    ∀ (fuel iteration : Nat) (resp : Resp) (txt : String) (tools : List ToolCall),
      resp_has_tool_call resp = true →
      (conversation_loop backend ex fuel iteration resp txt tools).1 = iteration + fuel := by
  intro fuel
  induction fuel with
  | zero => intro it resp txt tools _; simp [conversation_loop]
  | succ f ih =>
      intro it resp txt tools hresp
      have hflag : (scan_response ex resp txt).2.1 = true := by
        rw [scan_response_flag]
        exact hresp
      rcases hb : backend (it + 1) with _ | r2
      · exact absurd hb (htotal (it + 1))
      · rw [conversation_loop_step_cont backend ex f it resp r2 txt tools hflag hb]
        have := ih (it + 1) r2 (scan_response ex resp txt).1
          (tools ++ (scan_response ex resp txt).2.2) (hfc (it + 1) r2 hb)
        omega

/-! ### Claim C7 -/

/-- C7: when every executor call returns a response, the `/message` handler
returns a success body whose `iterations` field is at most
`max_iterations = 3`; and against a backend that requests a tool call in
every response, the loop stops exactly at the cap and the handler still
returns a success body. -/
theorem C7_loop_bounded (backend : Nat → Option Resp) (ex : String → String → String)
    (htotal : ∀ n, backend n ≠ none) :
    (message_handler backend ex).success = true
    ∧ (∃ k, (message_handler backend ex).iterations = some k ∧ k ≤ max_iterations)
    ∧ ((∀ n r, backend n = some r → resp_has_tool_call r = true) →
        (message_handler backend ex).iterations = some max_iterations) := by
  have hb0 : ∃ r0, backend 0 = some r0 := by
    rcases h : backend 0 with _ | r0
    · exact absurd h (htotal 0)
    · exact ⟨r0, rfl⟩
  rcases hb0 with ⟨r0, hb0⟩
  rcases ho : (conversation_loop backend ex max_iterations 0 r0 "" []).2.2.2 with _ | r
  · have hs := conversation_loop_some backend ex htotal max_iterations 0 r0 "" []
    rw [ho] at hs
    simp at hs
  · have hmh : message_handler backend ex
        = ⟨true,
            extract_final_text r (conversation_loop backend ex max_iterations 0 r0 "" []).2.1,
            (conversation_loop backend ex max_iterations 0 r0 "" []).2.2.1,
            some (conversation_loop backend ex max_iterations 0 r0 "" []).1⟩ := by
      simp only [message_handler, hb0, ho]
    rw [hmh]
    refine ⟨rfl, ⟨(conversation_loop backend ex max_iterations 0 r0 "" []).1, rfl, ?_⟩, ?_⟩
    · have := conversation_loop_le backend ex max_iterations 0 r0 "" []
      simpa using this
    · intro hfc
      have := conversation_loop_full backend ex hfc htotal max_iterations 0 r0 "" []
        (hfc 0 r0 hb0)
      simp [this]

/-- C7 witness: a backend that always answers with one tool-call part; the
handler succeeds with `iterations = 3`. -/
theorem C7_witness :
    (message_handler
        (fun _ => some (Resp.mk [Candidate.mk [ContentPart.mk none (some ("predict", "x"))]]))
        (fun _ _ => "ok")).success = true
    ∧ (message_handler
        (fun _ => some (Resp.mk [Candidate.mk [ContentPart.mk none (some ("predict", "x"))]]))
        (fun _ _ => "ok")).iterations = some max_iterations := by
  have htotal : ∀ n, (fun _ : Nat =>
      some (Resp.mk [Candidate.mk [ContentPart.mk none (some ("predict", "x"))]])) n ≠ none :=
    fun _ h => Option.noConfusion h
  have hfc : ∀ n r, (fun _ : Nat =>
      some (Resp.mk [Candidate.mk [ContentPart.mk none (some ("predict", "x"))]])) n = some r →
      resp_has_tool_call r = true := by
    intro n r h
    cases h
    rfl
  exact ⟨(C7_loop_bounded _ _ htotal).1, (C7_loop_bounded _ _ htotal).2.2 hfc⟩

/-! ### Claim C2 -/

/-- The failing scenario for C2: the first executor call returns a response
with text and one tool call; the follow-up executor call terminally fails. -/
def c2_backend : Nat → Option Resp := fun n =>
  if n = 0 then
    some (Resp.mk [Candidate.mk [ContentPart.mk (some "partial answer")
      (some ("predict", "x"))]])
  else none

/-- C2 (code bug): when a mid-loop executor call terminally fails, the
handler does not return the captured text and gathered tool results.
The loop itself did capture text `"partial answer"` and one executed tool
call, but the final-extraction step dereferences the `None` response
(`test.py` line 726), so the caught exception produces a failure body with
empty `tool_calls` — the gathered progress is discarded, contradicting both
the claim and the code's own comment at line 720. -/
theorem C2_midloop_failure_discards_progress :
    ((conversation_loop c2_backend (fun _ _ => "tool output") max_iterations 0
        (Resp.mk [Candidate.mk [ContentPart.mk (some "partial answer")
          (some ("predict", "x"))]]) "" []).2.1 = "partial answer")
    ∧ ((conversation_loop c2_backend (fun _ _ => "tool output") max_iterations 0
        (Resp.mk [Candidate.mk [ContentPart.mk (some "partial answer")
          (some ("predict", "x"))]]) "" []).2.2.1
      = [⟨"predict", "x", "tool output"⟩])
    ∧ (message_handler c2_backend (fun _ _ => "tool output")).success = false
    ∧ (message_handler c2_backend (fun _ _ => "tool output")).tool_calls = []
    ∧ (message_handler c2_backend (fun _ _ => "tool output")).text = noneTypeError := by
  refine ⟨?_, ?_, ?_, ?_, ?_⟩ <;> decide

/-! ### Pacer lemmas -/

theorem mem_of_getLast_opt : ∀ (l : List Int) (a : Int), l.getLast? = some a → a ∈ l := by
  intro l
  induction l with
  | nil => intro a h; simp at h
  | cons t rest ih =>
      intro a h
      rcases rest with _ | ⟨r, rs⟩
      · simp at h
        simp [h]
      · rw [List.getLast?_cons_cons] at h
        exact List.mem_cons_of_mem t (ih a h)

/-- Pruning drops a run of old entries from the front, so it either empties
the list or keeps its last element. -/
theorem prune_old_getLast? (now : Int) :
    ∀ l : List Int, prune_old now l = [] ∨ (prune_old now l).getLast? = l.getLast? := by
  intro l
  induction l with
  | nil => exact Or.inl rfl
  | cons t rest ih =>
      by_cases h : now - t > 60
      · simp only [prune_old, if_pos h]
        rcases ih with h2 | h2
        · exact Or.inl h2
        · rcases rest with _ | ⟨r, rs⟩
          · exact Or.inl rfl
          · exact Or.inr (by rw [h2, List.getLast?_cons_cons])
      · right
        simp [prune_old, h]

/-- When pruning empties the list, every entry was over the 60-second
horizon. -/
theorem prune_old_nil_old (now : Int) :
    ∀ l : List Int, prune_old now l = [] → ∀ x ∈ l, now - x > 60 := by
  intro l
  induction l with
  | nil => intro _ x hx; simp at hx
  | cons t rest ih =>
      intro h x hx
      by_cases hg : now - t > 60
      · simp only [prune_old, if_pos hg] at h
        rcases List.mem_cons.mp hx with h2 | h2
        · rw [h2]
          exact hg
        · exact ih h x h2
      · simp only [prune_old, if_neg hg] at h
        exact absurd h (List.cons_ne_nil t rest)

/-- A deque append always ends with the appended element. -/
theorem deque_append_getLast? (l : List Int) (t : Int) :
    (deque_append l t).getLast? = some t := by
  unfold deque_append
  split <;> simp [List.getLast?_concat]

/-! ### Claim C9 -/

/-- C9: when `request_times` is non-empty with most recent entry `p`, one
`throttle_requests` call records a new timestamp at least
`MIN_REQUEST_INTERVAL` after `p` (so two consecutive recorded timestamps are
at least 5 seconds apart), and whenever the most recent entry surviving the
60-second pruning is less than the minimum interval old, the call sleeps
exactly the remaining time. -/
theorem C9_pacer_spacing (st : PacerState) (extra p : Int) (hextra : 0 ≤ extra)
    (hp : st.request_times.getLast? = some p) :
    (∃ ts, (throttle_requests extra st).1.request_times.getLast? = some ts
      ∧ p + MIN_REQUEST_INTERVAL ≤ ts)
    ∧ (∀ q, (prune_old st.clock st.request_times).getLast? = some q →
        st.clock - q < MIN_REQUEST_INTERVAL →
        (throttle_requests extra st).2 = MIN_REQUEST_INTERVAL - (st.clock - q)) := by
  constructor
  · rcases hpr : (prune_old st.clock st.request_times).getLast? with _ | q
    · have hnil : prune_old st.clock st.request_times = [] :=
        List.getLast?_eq_none_iff.mp hpr
      have h60 : st.clock - p > 60 := by
        exact prune_old_nil_old st.clock st.request_times hnil p
          (mem_of_getLast_opt st.request_times p hp)
      refine ⟨st.clock + 0 + extra, ?_, ?_⟩
      · simp only [throttle_requests, hpr]
        exact deque_append_getLast? _ _
      · simp only [MIN_REQUEST_INTERVAL]
        omega
    · have hq : q = p := by
        rcases prune_old_getLast? st.clock st.request_times with h | h
        · rw [h] at hpr
          simp at hpr
        · rw [h, hp] at hpr
          exact (Option.some.inj hpr).symm
      subst hq
      by_cases hw : st.clock - q < MIN_REQUEST_INTERVAL
      · refine ⟨st.clock + (MIN_REQUEST_INTERVAL - (st.clock - q)) + extra, ?_, ?_⟩
        · simp only [throttle_requests, hpr, if_pos hw]
          exact deque_append_getLast? _ _
        · omega
      · refine ⟨st.clock + 0 + extra, ?_, ?_⟩
        · simp only [throttle_requests, hpr, if_neg hw]
          exact deque_append_getLast? _ _
        · simp only [MIN_REQUEST_INTERVAL] at hw ⊢
          omega
  · intro q hq hlt
    simp only [throttle_requests, hq, if_pos hlt]

/-- C9 witness: previous timestamp 0, clock 3 (only 3 of the 5 seconds have
elapsed): the new recorded timestamp is at least 5. -/
theorem C9_witness :
    ∃ ts, (throttle_requests 0 ⟨3, [0]⟩).1.request_times.getLast? = some ts
      ∧ 0 + MIN_REQUEST_INTERVAL ≤ ts :=
  (C9_pacer_spacing ⟨3, [0]⟩ 0 0 (by decide) (by decide)).1

end BackendMcp
